import Mathlib

/-!
Verification of the MediBot glue logic (src/ai_doc.py) against its
specification. The Python source is shallowly embedded: JSON objects
become association lists, dictionary access that can raise becomes
Option / Except, network calls become explicit outcome parameters, and
the Streamlit side effects (error banners, the conversation held in
session state) become explicit fields of the step results.
-/

namespace MediBot

/-- One element of the geodata API response, as `get_nearby_hospitals`
sees it after JSON parsing: `tags` is absent or an object (association
list of string keys to string values), and the top-level `lat` / `lon`
keys may be absent (absence makes the Python indexing raise).
Coordinates are kept at an arbitrary type `α` because the code only
passes them through. -/
structure OsmElement (α : Type) where
  tags : Option (List (String × String))
  lat : Option α
  lon : Option α
deriving Repr, DecidableEq

/-- The flat record `get_nearby_hospitals` builds per kept element. -/
structure HospitalRecord (α : Type) where
  name : String
  phone : String
  lat : α
  lon : α
  address : String
deriving Repr, DecidableEq

/-- Outcome of the Overpass request plus JSON parse in
`get_nearby_hospitals`: either a parsed list of elements, or an
exception (network or parse failure) carrying a message. -/
inductive FetchOutcome (α : Type) where
  | ok (elements : List (OsmElement α))
  | fail (msg : String)

/-- The guard on line 52 of ai_doc.py:
`"tags" in element and "name" in element["tags"]`. -/
def hasName {α : Type} (e : OsmElement α) : Bool :=
  match e.tags with
  | some ts => (ts.lookup "name").isSome
  | none => false

/-- The dictionary literal on lines 53-59 of ai_doc.py, built from an
element whose tags object is `ts` and whose coordinates are `la`, `lo`:
`tags.get` with the documented defaults for name, phone and address. -/
def mkHospital {α : Type} (ts : List (String × String)) (la lo : α) :
    HospitalRecord α :=
  { name := (ts.lookup "name").getD "Unnamed Hospital"
    phone := (ts.lookup "phone").getD "N/A"
    lat := la
    lon := lo
    address := (ts.lookup "addr:full").getD "Address not available" }

/-- The `for element in data.get("elements", [])` loop of
`get_nearby_hospitals` (lines 51-59). Elements without tags or without a
name tag are skipped; a named element whose `lat` or `lon` key is absent
makes `element["lat"]` / `element["lon"]` raise `KeyError`, which aborts
the whole loop (modelled as `Except.error`). -/
def processElements {α : Type} : List (OsmElement α) →
    Except Unit (List (HospitalRecord α))
  | [] => Except.ok []
  | e :: rest =>
    match e.tags with
    | none => processElements rest
    | some ts =>
      if (ts.lookup "name").isSome then
        match e.lat, e.lon with
        | some la, some lo =>
          (processElements rest).map (fun hs => mkHospital ts la lo :: hs)
        | _, _ => Except.error ()
      else processElements rest

/-- `get_nearby_hospitals` (lines 38-64 of ai_doc.py) after the request
outcome is made explicit: on a request or parse exception, and equally
on a `KeyError` raised inside the loop, the handler returns `[]`;
otherwise the accumulated list is returned. -/
def get_nearby_hospitals {α : Type} (outcome : FetchOutcome α) :
    List (HospitalRecord α) :=
  match outcome with
  | FetchOutcome.fail _ => []
  | FetchOutcome.ok elems =>
    match processElements elems with
    | Except.ok hs => hs
    | Except.error _ => []

/-- Whether `get_nearby_hospitals` displays `st.error` (line 63): true
exactly when the exception handler runs, i.e. on a fetch or parse
failure or on a `KeyError` inside the loop. -/
def hospitalErrorDisplayed {α : Type} (outcome : FetchOutcome α) : Bool :=
  match outcome with
  | FetchOutcome.fail _ => true
  | FetchOutcome.ok elems =>
    match processElements elems with
    | Except.ok _ => false
    | Except.error _ => true

/-- The record `get_nearby_hospitals` would build from one element, as a
partial function: `some` exactly when the element is kept and its
coordinates are present. -/
def namedRecord {α : Type} (e : OsmElement α) : Option (HospitalRecord α) :=
  match e.tags, e.lat, e.lon with
  | some ts, some la, some lo =>
    if (ts.lookup "name").isSome then some (mkHospital ts la lo) else none
  | _, _, _ => none

/-- Outcome of `model.generate_content(full_prompt)` inside
`get_ai_response`: either the reply text, or an exception with
message `msg`. -/
inductive GenOutcome where
  | ok (text : String)
  | exn (msg : String)

/-- The f-string `full_prompt` of `get_ai_response`
(lines 15-29 of ai_doc.py). -/
def full_prompt (user_input conversation_history : String) : String :=
  "\n    You are an AI medical assistant. You can provide general medical information and suggestions, \n    but you should always clarify that you\x27re not a licensed medical professional and your advice \n    should not replace professional medical consultation.\n    \n    Based on the following symptoms, provide:\n    1. Possible causes\n    2. Recommended next steps\n    3. When they should seek immediate medical attention\n    \n    User\x27s symptoms: " ++ user_input ++ "\n    \n    Previous conversation for context:\n    " ++ conversation_history ++ "\n    "

/-- `get_ai_response` (lines 13-35 of ai_doc.py), with the language
model call made explicit as a function `gen` from the prompt to an
outcome: the reply text is returned, and any exception is caught and
turned into the string `"Error generating response: <message>"`. -/
def get_ai_response (user_input conversation_history : String)
    (gen : String → GenOutcome) : String :=
  match gen (full_prompt user_input conversation_history) with
  | GenOutcome.ok t => t
  | GenOutcome.exn m => "Error generating response: " ++ m

/-- The inline serialization on line 146 of ai_doc.py:
`"\n".join(f"... " for role, msg in st.session_state.conversation[:-1])`
with user turns labelled `User` and every other role labelled `AI`.
The most recent turn (`[:-1]`) is excluded. -/
def serializeForContext (conv : List (String × String)) : String :=
  String.intercalate "\n"
    (conv.dropLast.map
      (fun p => (if p.1 = "user" then "User" else "AI") ++ ": " ++ p.2))

/-- Outcome of the code in the `try` block of the Send handler that
runs before `get_ai_response` (configure_genai and the GenerativeModel
constructor, lines 140-143): either they succeed and the generation
call `gen` runs, or one of them raises with message `msg`, landing in
the `except` branch on line 157. -/
inductive SetupOutcome where
  | runsGen (gen : String → GenOutcome)
  | setupExn (msg : String)

/-- Observable result of one click of the Send button: the conversation
in session state afterwards, whether the generation network call was
made, and whether an `st.error` banner was displayed. -/
structure SendResult where
  conv : List (String × String)
  networkCall : Bool
  errorShown : Bool
deriving Repr

/-- One click of the Send button (lines 129-160 of ai_doc.py). An empty
(falsy) API key shows a validation error and returns at once; an empty
user text makes the whole branch a no-op; otherwise the user turn is
appended, the prior context serialized, and an assistant (`"ai"`) turn
is appended whether the setup raises or the generation call runs. -/
def sendStep (api_key user_input : String) (outcome : SetupOutcome)
    (conv : List (String × String)) : SendResult :=
  if api_key = "" then
    { conv := conv, networkCall := false, errorShown := true }
  else if user_input = "" then
    { conv := conv, networkCall := false, errorShown := false }
  else
    let conv1 := conv ++ [("user", user_input)]
    match outcome with
    | SetupOutcome.setupExn m =>
      { conv := conv1 ++ [("ai", "Error: " ++ m)]
        networkCall := false, errorShown := true }
    | SetupOutcome.runsGen gen =>
      { conv := conv1 ++
          [("ai", get_ai_response user_input (serializeForContext conv1) gen)]
        networkCall := true, errorShown := false }

/-- A sequence of Send clicks, each with its own user text and setup
outcome, folded over the conversation in session state. -/
def runConversation (api_key : String)
    (sends : List (String × SetupOutcome))
    (conv : List (String × String)) : List (String × String) :=
  sends.foldl (fun c s => (sendStep api_key s.1 s.2 c).conv) conv

/-- Number of turns of a given role in the conversation. -/
def countRole (role : String) (conv : List (String × String)) : Nat :=
  (conv.filter (fun p => p.1 == role)).length

/-- Modelled from the spec: the interactive surface (a Streamlit UI,
external to the glue code) offers the search radius through a slider
bounded to the integer range 1000 to 10000 (line 103 of ai_doc.py sets
these bounds); a value outside the range is clamped to it before the
glue code sees it. -/
def sliderValue (lo hi x : Int) : Int := max lo (min x hi)

/-- The radius with which `main` invokes `get_nearby_hospitals`
(line 168), as delivered by the radius slider of line 103. -/
def radiusForSearch (x : Int) : Int := sliderValue 1000 10000 x

/- ------------------------------------------------------------------ -/
/- Helper lemmas                                                      -/
/- ------------------------------------------------------------------ -/

lemma processElements_of_coords {α : Type} (elems : List (OsmElement α))
    (h : ∀ e ∈ elems, e.lat.isSome ∧ e.lon.isSome) :
    processElements elems = Except.ok (elems.filterMap namedRecord) := by
  induction elems with
  | nil => rfl
  | cons e rest ih =>
    have he := h e (List.mem_cons_self e rest)
    have hrest : ∀ x ∈ rest, x.lat.isSome ∧ x.lon.isSome :=
      fun x hx => h x (List.mem_cons_of_mem e hx)
    obtain ⟨la, hla⟩ := Option.isSome_iff_exists.mp he.1
    obtain ⟨lo, hlo⟩ := Option.isSome_iff_exists.mp he.2
    cases htags : e.tags with
    | none =>
      simp [processElements, htags, ih hrest, List.filterMap_cons,
        namedRecord, hla, hlo]
    | some ts =>
      by_cases hn : (ts.lookup "name").isSome
      · simp [processElements, htags, hla, hlo, hn, ih hrest,
          List.filterMap_cons, namedRecord, Except.map]
      · simp [processElements, htags, hla, hlo, hn, ih hrest,
          List.filterMap_cons, namedRecord]

lemma filterMap_namedRecord_length {α : Type} (elems : List (OsmElement α))
    (h : ∀ e ∈ elems, e.lat.isSome ∧ e.lon.isSome) :
    (elems.filterMap namedRecord).length =
      (elems.filter (fun e => hasName e)).length := by
  induction elems with
  | nil => rfl
  | cons e rest ih =>
    have he := h e (List.mem_cons_self e rest)
    have hrest : ∀ x ∈ rest, x.lat.isSome ∧ x.lon.isSome :=
      fun x hx => h x (List.mem_cons_of_mem e hx)
    obtain ⟨la, hla⟩ := Option.isSome_iff_exists.mp he.1
    obtain ⟨lo, hlo⟩ := Option.isSome_iff_exists.mp he.2
    cases htags : e.tags with
    | none =>
      simp [List.filterMap_cons, List.filter_cons, namedRecord, hasName,
        htags, ih hrest]
    | some ts =>
      by_cases hn : (ts.lookup "name").isSome
      · simp [List.filterMap_cons, List.filter_cons, namedRecord, hasName,
          htags, hla, hlo, hn, ih hrest]
      · simp [List.filterMap_cons, List.filter_cons, namedRecord, hasName,
          htags, hla, hlo, hn, ih hrest]

lemma processElements_error_of_bad {α : Type} (elems : List (OsmElement α))
    (h : ∃ e ∈ elems, hasName e ∧ (e.lat = none ∨ e.lon = none)) :
    processElements elems = Except.error () := by
  induction elems with
  | nil => simp at h
  | cons e rest ih =>
    obtain ⟨b, hb, hbn, hbc⟩ := h
    rcases List.mem_cons.mp hb with hb | hb
    · subst hb
      unfold hasName at hbn
      cases htags : b.tags with
      | none => rw [htags] at hbn; simp at hbn
      | some ts =>
        rw [htags] at hbn
        rcases hbc with hc | hc <;>
          cases hlat : b.lat <;> cases hlon : b.lon <;>
            simp_all [processElements]
    · have herr := ih ⟨b, hb, hbn, hbc⟩
      cases htags : e.tags with
      | none => simp [processElements, htags, herr]
      | some ts =>
        by_cases hn : (ts.lookup "name").isSome
        · cases hlat : e.lat <;> cases hlon : e.lon <;>
            simp [processElements, htags, hn, hlat, hlon, herr, Except.map]
        · simp [processElements, htags, hn, herr]

lemma sendStep_conv_shape (api_key u : String) (o : SetupOutcome)
    (c : List (String × String)) (hk : api_key ≠ "") (hu : u ≠ "") :
    ∃ r, (sendStep api_key u o c).conv = c ++ [("user", u), ("ai", r)] := by
  cases o with
  | setupExn m =>
    exact ⟨"Error: " ++ m, by simp [sendStep, hk, hu]⟩
  | runsGen gen =>
    refine ⟨get_ai_response u
      (serializeForContext (c ++ [("user", u)])) gen, ?_⟩
    simp [sendStep, hk, hu]

lemma countRole_append (r : String) (c d : List (String × String)) :
    countRole r (c ++ d) = countRole r c + countRole r d := by
  simp [countRole, List.filter_append]

lemma countRole_user_ai (u x : String) :
    countRole "user" [("user", u), ("ai", x)] = 1 ∧
      countRole "ai" [("user", u), ("ai", x)] = 1 := by
  simp [countRole, List.filter]

lemma runConversation_counts (api_key : String)
    (sends : List (String × SetupOutcome)) (conv : List (String × String))
    (hk : api_key ≠ "") (hs : ∀ s ∈ sends, s.1 ≠ "") :
    countRole "user" (runConversation api_key sends conv) =
        countRole "user" conv + sends.length ∧
      countRole "ai" (runConversation api_key sends conv) =
        countRole "ai" conv + sends.length := by
  induction sends generalizing conv with
  | nil => simp [runConversation]
  | cons s rest ih =>
    have hs1 : s.1 ≠ "" := hs s (List.mem_cons_self s rest)
    have hrest : ∀ x ∈ rest, x.1 ≠ "" :=
      fun x hx => hs x (List.mem_cons_of_mem s hx)
    obtain ⟨r, hr⟩ := sendStep_conv_shape api_key s.1 s.2 conv hk hs1
    have hrun : runConversation api_key (s :: rest) conv =
        runConversation api_key rest ((sendStep api_key s.1 s.2 conv).conv) :=
      rfl
    rw [hrun, hr]
    obtain ⟨ihu, iha⟩ := ih (conv ++ [("user", s.1), ("ai", r)]) hrest
    refine ⟨?_, ?_⟩
    · rw [ihu, countRole_append, (countRole_user_ai s.1 r).1]
      simp only [List.length_cons]
      omega
    · rw [iha, countRole_append, (countRole_user_ai s.1 r).2]
      simp only [List.length_cons]
      omega

/- ------------------------------------------------------------------ -/
/- Claim theorems                                                     -/
/- ------------------------------------------------------------------ -/

/-- C1: for every sequence of N Send actions with non-empty user text
and a non-empty API key, the conversation afterwards has exactly N user
turns and exactly N assistant turns — each Send appends the user turn
and, whether the generation setup raises or the generation call runs
(succeeding or failing), an assistant turn is always appended after
it. -/
theorem send_sequence_turn_counts (api_key : String)
    (sends : List (String × SetupOutcome))
    (hk : api_key ≠ "") (hs : ∀ s ∈ sends, s.1 ≠ "") :
    countRole "user" (runConversation api_key sends []) = sends.length ∧
      countRole "ai" (runConversation api_key sends []) = sends.length := by
  have h := runConversation_counts api_key sends [] hk hs
  simpa [countRole] using h

theorem send_sequence_turn_counts_witness :
    ("k" : String) ≠ "" ∧
    (∀ s ∈ ([("hi", SetupOutcome.setupExn "boom"),
        ("ow", SetupOutcome.runsGen (fun _ => GenOutcome.ok "rest"))] :
        List (String × SetupOutcome)), s.1 ≠ "") ∧
    (countRole "user" (runConversation "k"
        [("hi", SetupOutcome.setupExn "boom"),
         ("ow", SetupOutcome.runsGen (fun _ => GenOutcome.ok "rest"))] []) =
      ([("hi", SetupOutcome.setupExn "boom"),
        ("ow", SetupOutcome.runsGen (fun _ => GenOutcome.ok "rest"))] :
        List (String × SetupOutcome)).length ∧
    countRole "ai" (runConversation "k"
        [("hi", SetupOutcome.setupExn "boom"),
         ("ow", SetupOutcome.runsGen (fun _ => GenOutcome.ok "rest"))] []) =
      ([("hi", SetupOutcome.setupExn "boom"),
        ("ow", SetupOutcome.runsGen (fun _ => GenOutcome.ok "rest"))] :
        List (String × SetupOutcome)).length) :=
  ⟨by decide, by decide,
    send_sequence_turn_counts "k"
      [("hi", SetupOutcome.setupExn "boom"),
       ("ow", SetupOutcome.runsGen (fun _ => GenOutcome.ok "rest"))]
      (by decide) (by decide)⟩

/-- C2: serializing the conversation for prompt context excluding the
most recent turn joins every earlier turn as lines of the form
speaker-label, colon, space, text, separated by newlines, labelling
user turns User and all other turns AI; in particular the store
user-a, ai-b, user-c serializes to exactly the two lines for a and b,
with no character of the excluded text c appearing. -/
theorem serializeForContext_excludes_last :
    (∀ (conv : List (String × String)) (t : String × String),
      serializeForContext (conv ++ [t]) =
        String.intercalate "\n" (conv.map (fun p =>
          (if p.1 = "user" then "User" else "AI") ++ ": " ++ p.2))) ∧
    serializeForContext [("user", "a"), ("ai", "b"), ("user", "c")] =
      "User: a\nAI: b" ∧
    ('c' ∈ (serializeForContext
        [("user", "a"), ("ai", "b"), ("user", "c")]).data → False) := by
  refine ⟨?_, by decide, by decide⟩
  intro conv t
  simp [serializeForContext, List.dropLast_concat]

/-- C3: on a successfully fetched and parsed response whose elements
all carry coordinates, the hospital search returns exactly the records
of the elements whose tags object contains a name key — one record per
named element and none for an unnamed element. -/
theorem hospitals_one_record_per_named {α : Type}
    (elems : List (OsmElement α))
    (h : ∀ e ∈ elems, e.lat.isSome ∧ e.lon.isSome) :
    get_nearby_hospitals (FetchOutcome.ok elems) =
        elems.filterMap namedRecord ∧
      (get_nearby_hospitals (FetchOutcome.ok elems)).length =
        (elems.filter (fun e => hasName e)).length := by
  have hp := processElements_of_coords elems h
  exact ⟨by simp [get_nearby_hospitals, hp],
    by simp [get_nearby_hospitals, hp, filterMap_namedRecord_length elems h]⟩

theorem hospitals_one_record_per_named_witness :
    (∀ e ∈ ([⟨some [("name", "General Hospital")], some 37, some (-122)⟩,
        ⟨some [("amenity", "clinic")], some 40, some 2⟩] :
        List (OsmElement Int)), e.lat.isSome ∧ e.lon.isSome) ∧
    (get_nearby_hospitals (FetchOutcome.ok
        ([⟨some [("name", "General Hospital")], some 37, some (-122)⟩,
          ⟨some [("amenity", "clinic")], some 40, some 2⟩] :
          List (OsmElement Int))) =
      ([⟨some [("name", "General Hospital")], some 37, some (-122)⟩,
        ⟨some [("amenity", "clinic")], some 40, some 2⟩] :
        List (OsmElement Int)).filterMap namedRecord ∧
    (get_nearby_hospitals (FetchOutcome.ok
        ([⟨some [("name", "General Hospital")], some 37, some (-122)⟩,
          ⟨some [("amenity", "clinic")], some 40, some 2⟩] :
          List (OsmElement Int)))).length =
      (([⟨some [("name", "General Hospital")], some 37, some (-122)⟩,
         ⟨some [("amenity", "clinic")], some 40, some 2⟩] :
         List (OsmElement Int)).filter (fun e => hasName e)).length) ∧
    get_nearby_hospitals (FetchOutcome.ok
        ([⟨some [("name", "General Hospital")], some 37, some (-122)⟩,
          ⟨some [("amenity", "clinic")], some 40, some 2⟩] :
          List (OsmElement Int))) =
      [{ name := "General Hospital", phone := "N/A", lat := 37,
         lon := -122, address := "Address not available" }] :=
  ⟨by decide,
    hospitals_one_record_per_named
      ([⟨some [("name", "General Hospital")], some 37, some (-122)⟩,
        ⟨some [("amenity", "clinic")], some 40, some 2⟩] :
        List (OsmElement Int)) (by decide),
    by decide⟩

/-- C4: an element whose tags hold a name but no phone and no address
key yields a record with phone N-slash-A and address
"Address not available", while name, latitude and longitude pass
through unchanged. -/
theorem hospital_record_defaults {α : Type} (ts : List (String × String))
    (la lo : α) (n : String)
    (hn : ts.lookup "name" = some n)
    (hp : ts.lookup "phone" = none)
    (ha : ts.lookup "addr:full" = none) :
    namedRecord (⟨some ts, some la, some lo⟩ : OsmElement α) =
      some { name := n, phone := "N/A", lat := la, lon := lo,
             address := "Address not available" } := by
  simp [namedRecord, mkHospital, hn, hp, ha]

theorem hospital_record_defaults_witness :
    ([("name", "X")] : List (String × String)).lookup "name" = some "X" ∧
    ([("name", "X")] : List (String × String)).lookup "phone" = none ∧
    ([("name", "X")] : List (String × String)).lookup "addr:full" = none ∧
    namedRecord (⟨some [("name", "X")], some (1 : Int), some 2⟩ :
        OsmElement Int) =
      some { name := "X", phone := "N/A", lat := 1, lon := 2,
             address := "Address not available" } :=
  ⟨by decide, by decide, by decide,
    hospital_record_defaults [("name", "X")] (1 : Int) 2 "X"
      (by decide) (by decide) (by decide)⟩

/-- C5: with an empty API key, a Send click leaves the conversation
exactly as it was, makes no generation network call and shows a
blocking validation error, regardless of the user text and of what the
generation setup would have done. -/
theorem empty_key_blocks_send (user_input : String) (outcome : SetupOutcome)
    (conv : List (String × String)) :
    sendStep "" user_input outcome conv =
      { conv := conv, networkCall := false, errorShown := true } := rfl

/-- C6: if the request or the JSON parse raises, the hospital search
returns the empty list (and the error banner is displayed), which is
the same return value as a successful response that found no
hospitals. -/
theorem hospital_failure_returns_empty (α : Type) (msg : String) :
    get_nearby_hospitals (FetchOutcome.fail msg : FetchOutcome α) = [] ∧
      hospitalErrorDisplayed (FetchOutcome.fail msg : FetchOutcome α) =
        true ∧
      get_nearby_hospitals
        (FetchOutcome.ok ([] : List (OsmElement α))) = [] :=
  ⟨rfl, rfl, rfl⟩

/-- C7: the radius delivered by the interactive surface is clamped to
the range 1000 to 10000, so the hospital search is never invoked with
a radius outside that range. -/
theorem radius_always_in_range (x : Int) :
    1000 ≤ radiusForSearch x ∧ radiusForSearch x ≤ 10000 := by
  unfold radiusForSearch sliderValue
  constructor
  · exact le_max_left _ _
  · exact max_le (by norm_num) (min_le_right _ _)

/-- C8: whenever the underlying generation call raises an exception
with message m, get_ai_response returns (never raises) the string
"Error generating response: " followed by m. -/
theorem gen_error_becomes_string (user_input conversation_history m : String)
    (gen : String → GenOutcome)
    (h : gen (full_prompt user_input conversation_history) =
      GenOutcome.exn m) :
    get_ai_response user_input conversation_history gen =
      "Error generating response: " ++ m := by
  simp [get_ai_response, h]

theorem gen_error_becomes_string_witness :
    (fun _ => GenOutcome.exn "quota") (full_prompt "fever" "") =
        GenOutcome.exn "quota" ∧
      get_ai_response "fever" "" (fun _ => GenOutcome.exn "quota") =
        "Error generating response: quota" :=
  ⟨rfl, gen_error_becomes_string "fever" "" "quota"
    (fun _ => GenOutcome.exn "quota") rfl⟩

/-- C9: with a non-empty API key and empty user text, a Send click is a
silent no-op — the conversation is unchanged, no generation call is
made, and no error is shown. -/
theorem empty_input_silent_noop (api_key : String) (outcome : SetupOutcome)
    (conv : List (String × String)) (hk : api_key ≠ "") :
    sendStep api_key "" outcome conv =
      { conv := conv, networkCall := false, errorShown := false } := by
  simp [sendStep, hk]

theorem empty_input_silent_noop_witness :
    ("k" : String) ≠ "" ∧
      sendStep "k" "" (SetupOutcome.setupExn "e") [] =
        { conv := [], networkCall := false, errorShown := false } :=
  ⟨by decide, empty_input_silent_noop "k" (SetupOutcome.setupExn "e") []
    (by decide)⟩

/-- C10: if any response element has a name tag but lacks a lat or lon
key, the search returns the empty list (the direct indexing raises, the
handler catches, the error banner shows) and every record accumulated
from earlier elements is discarded. -/
theorem missing_coordinate_discards_all {α : Type}
    (elems : List (OsmElement α))
    (h : ∃ e ∈ elems, hasName e ∧ (e.lat = none ∨ e.lon = none)) :
    get_nearby_hospitals (FetchOutcome.ok elems) = [] ∧
      hospitalErrorDisplayed (FetchOutcome.ok elems) = true := by
  have herr := processElements_error_of_bad elems h
  exact ⟨by simp [get_nearby_hospitals, herr],
    by simp [hospitalErrorDisplayed, herr]⟩

theorem missing_coordinate_discards_all_witness :
    (∃ e ∈ ([⟨some [("name", "A")], some (1 : Int), some 2⟩,
        ⟨some [("name", "B")], none, some 5⟩] : List (OsmElement Int)),
      hasName e ∧ (e.lat = none ∨ e.lon = none)) ∧
    (get_nearby_hospitals (FetchOutcome.ok
        ([⟨some [("name", "A")], some (1 : Int), some 2⟩,
          ⟨some [("name", "B")], none, some 5⟩] :
          List (OsmElement Int))) = [] ∧
      hospitalErrorDisplayed (FetchOutcome.ok
        ([⟨some [("name", "A")], some (1 : Int), some 2⟩,
          ⟨some [("name", "B")], none, some 5⟩] :
          List (OsmElement Int))) = true) :=
  ⟨by decide,
    missing_coordinate_discards_all
      ([⟨some [("name", "A")], some (1 : Int), some 2⟩,
        ⟨some [("name", "B")], none, some 5⟩] : List (OsmElement Int))
      (by decide)⟩

end MediBot
